import Mathlib

/-!
Shallow embedding of the Pupero-MoneroWalletManager service
(`src/app/rpc.py`, `src/app/main.py`, `src/app/models.py`), together with
theorems checking the natural-language specification against it.

Python values manipulated by the code are JSON-shaped; we embed them as the
`Json` inductive below.  Python numbers are embedded as rationals, machine
floats are idealized as exact rational arithmetic.  Library collaborators
(httpx, pika, json.loads, the SQL engine) are embedded as explicit parameters
or as small definitions whose doc comments say what they stand for.
-/

namespace Pupero

/-- JSON-shaped Python values (dicts keep insertion order, as Python dicts do). -/
inductive Json where
  | null
  | bool (b : Bool)
  | num (q : ℚ)
  | str (s : String)
  | arr (elems : List Json)
  | obj (fields : List (String × Json))

/-- A Python dict with string keys (insertion-ordered association list). -/
abbrev Dict := List (String × Json)

/-- `d.get(k, default)` on a dict. -/
def dgetD (kvs : Dict) (k : String) (d : Json) : Json :=
  (kvs.lookup k).getD d

/-- `d.get(k)` on a dict: `None` (here `Json.null`) when the key is absent. -/
def pyGet (kvs : Dict) (k : String) : Json :=
  dgetD kvs k Json.null

/-- Python truthiness of a JSON-shaped value
(`None`/`False`/`0`/`""`/`[]`/`{}` are falsy). -/
def jTruthy : Json → Bool
  | .null => false
  | .bool b => b
  | .num q => decide (q ≠ 0)
  | .str s => decide (s ≠ "")
  | .arr xs => !xs.isEmpty
  | .obj kvs => !kvs.isEmpty

/-- `j == "s"` in Python: true only for an equal string. -/
def isStrEq (j : Json) (s : String) : Bool :=
  match j with
  | .str t => t == s
  | _ => false

/-- `j is None` in Python (absent keys read back as `None` via `pyGet`). -/
def isNull : Json → Bool
  | .null => true
  | _ => false

/-- Python `float(x)` on a JSON-shaped value; numeric strings and other
convertible shapes are not needed by the code paths under study, so anything
but a number or bool is a conversion failure (an exception in Python). -/
def pyFloat : Json → Option ℚ
  | .num q => some q
  | .bool b => some (if b then 1 else 0)
  | _ => none

/-- Truncation toward zero, the behaviour of Python `int()` on a float. -/
def pyTrunc (q : ℚ) : ℤ :=
  if 0 ≤ q then ⌊q⌋ else ⌈q⌉

/-- Python `int(x)`: floats truncate toward zero, bools map to 0/1, strings
parse as decimal integers; anything else raises (here `none`). -/
def pyInt : Json → Option ℤ
  | .num q => some (pyTrunc q)
  | .bool b => some (if b then 1 else 0)
  | .str s => s.toInt?
  | _ => none

/-- ASCII lowercasing of one character. -/
def lowerChar (c : Char) : Char :=
  if 'A' ≤ c ∧ c ≤ 'Z' then Char.ofNat (c.toNat + 32) else c

/-- Python `s.lower()` (ASCII range, which covers the header values in play). -/
def pyLower (s : String) : String :=
  ⟨s.toList.map lowerChar⟩

/-- Substring test: `pat in s` on Python strings. -/
def hasSubstr (s pat : String) : Bool :=
  go s.toList
where
  go : List Char → Bool
    | [] => pat.toList.isPrefixOf []
    | c :: cs => pat.toList.isPrefixOf (c :: cs) || go cs

/-! ## RPC client (`src/app/rpc.py`) -/

/-- The two httpx auth flavours `MoneroRPC._make_auth` can build. -/
inductive AuthKind where
  | basic
  | digest
deriving DecidableEq

/-- Truthiness of an optional Python string (`None` and `""` are falsy). -/
def strTruthy : Option String → Bool
  | none => false
  | some s => decide (s ≠ "")

/-- An HTTP response as seen by the client: status, headers, decoded JSON body.
(`r.json()` decoding failures are outside the claims under study, so the body
is carried already decoded.) -/
structure HttpResponse where
  status : Nat
  headers : List (String × String)
  body : Json

/-- The remote wallet-rpc server: given the attempt number (1 or 2) and the
auth used for that attempt, either a transport error (httpx.RequestError,
carried as its message) or a response. -/
abbrev Server := Nat → Option AuthKind → Except String HttpResponse

/-- Constructor state of `MoneroRPC` (url, credentials, configured scheme,
already `.strip().lower()`-normalized as the constructor does). -/
structure RpcConfig where
  url : String
  username : Option String
  password : Option String
  auth_scheme : String

/-- Case-insensitive header lookup with default `""`, as httpx `headers.get`
behaves (so the source's double lookup of `www-authenticate` /
`WWW-Authenticate` is a single case-insensitive lookup here). -/
def headerGet (hs : List (String × String)) (k : String) : String :=
  match hs.find? (fun p => pyLower p.1 == pyLower k) with
  | some p => p.2
  | none => ""

namespace MoneroRPC

/-- `MoneroRPC._make_auth`: no credentials gives no auth; scheme `"digest"`
(after defaulting `""` to `"basic"` and lowercasing) gives digest auth,
anything else basic auth. -/
def _make_auth (username password : Option String) (scheme : String) : Option AuthKind :=
  if !(strTruthy username || strTruthy password) then
    none
  else if pyLower (if scheme == "" then "basic" else scheme) == "digest" then
    some .digest
  else
    some .basic

/-- The HTTP exchange inside `MoneroRPC.call`: first attempt with the
configured scheme; if it returns 401 and the `WWW-Authenticate` challenge
contains `digest` (case-insensitively), exactly one retry with digest auth.
Returns the auth used per attempt and the transport outcome. -/
def callExchange (cfg : RpcConfig) (server : Server) :
    List (Option AuthKind) × Except String HttpResponse :=
  let a1 := _make_auth cfg.username cfg.password cfg.auth_scheme
  match server 1 a1 with
  | .error e => ([a1], .error e)
  | .ok r1 =>
    if r1.status == 401 && hasSubstr (pyLower (headerGet r1.headers "www-authenticate")) "digest" then
      let a2 := _make_auth cfg.username cfg.password "digest"
      match server 2 a2 with
      | .error e => ([a1, a2], .error e)
      | .ok r2 => ([a1, a2], .ok r2)
    else
      ([a1], .ok r1)

/-- The ways `MoneroRPC.call` fails. -/
inductive CallErr where
  /-- RuntimeError raised on httpx.RequestError, with the connectivity hint. -/
  | transport (msg : String)
  /-- RuntimeError raised on httpx.HTTPStatusError after `raise_for_status`:
  carries the status, the configured scheme and the server challenge. -/
  | httpStatus (status : Nat) (scheme : String) (challenge : String)
  /-- RuntimeError for a JSON-RPC envelope with a truthy `error` field. -/
  | rpcError (payload : Json)
  /-- An unhandled Python exception (e.g. `"error" in data` on a non-dict). -/
  | pyError (msg : String)

/-- Lines 54-57 of `rpc.py`: `if "error" in data and data["error"]` is a call
failure carrying the payload; otherwise return `data.get("result", {})`.
On a non-dict body the Python raises an unhandled TypeError/AttributeError. -/
def envelopeResult : Json → Except CallErr Json
  | Json.obj kvs =>
    match kvs.lookup "error" with
    | some e =>
      if jTruthy e then .error (.rpcError e)
      else .ok ((kvs.lookup "result").getD (Json.obj []))
    | none => .ok ((kvs.lookup "result").getD (Json.obj []))
  | _ => .error (.pyError "TypeError")

/-- `MoneroRPC.call`: the exchange of `callExchange`, then `raise_for_status`
(success only for 2xx, as httpx does), then the JSON-RPC envelope handling.
Returns the auth used per HTTP attempt together with the outcome. -/
def call (cfg : RpcConfig) (server : Server) :
    List (Option AuthKind) × Except CallErr Json :=
  match callExchange cfg server with
  | (atts, .error e) =>
    (atts, .error (.transport ("Cannot reach monero-wallet-rpc at " ++ cfg.url ++
      ". Original error: " ++ e)))
  | (atts, .ok r) =>
    if 200 ≤ r.status ∧ r.status < 300 then
      (atts, envelopeResult r.body)
    else
      (atts, .error (.httpStatus r.status cfg.auth_scheme (headerGet r.headers "www-authenticate")))

/-- Python `round()` (banker's rounding: ties go to the even integer). -/
def pythonRound (q : ℚ) : ℤ :=
  if q - ⌊q⌋ < 1/2 then ⌊q⌋
  else if 1/2 < q - ⌊q⌋ then ⌊q⌋ + 1
  else if ⌊q⌋ % 2 = 0 then ⌊q⌋ else ⌊q⌋ + 1

/-- `MoneroRPC.xmr_to_atomic`: `int(round(amount_xmr * 10**12))`
(float arithmetic idealized as exact rationals). -/
def xmr_to_atomic (amount_xmr : ℚ) : ℤ :=
  pythonRound (amount_xmr * 10 ^ 12)

/-- `MoneroRPC.atomic_to_xmr`: `amount_atomic / 10**12`. -/
def atomic_to_xmr (amount_atomic : ℤ) : ℚ :=
  (amount_atomic : ℚ) / 10 ^ 12

end MoneroRPC

/-! ## Withdrawal processor and queue consumer (`src/app/main.py`) -/

/-- Outcome-level view of `MoneroRPC.call` as the handlers see it: method and
params in, either a result mapping or a raised RuntimeError (its message). -/
abbrev Oracle := String → Json → Except String Json

/-- One wallet RPC call issued by a handler (method and params). -/
structure RpcCall where
  method : String
  params : Json

/-- `int(idx.get("index", {}).get("major", 0))` / `...("minor", 0)` from
`_process_withdraw` (and the transfer handlers): any non-dict along the way or
a failing `int()` raises, which the surrounding `try` observes. -/
def resolveIndex (idx : Json) : Except String (ℤ × ℤ) :=
  match idx with
  | Json.obj kvs =>
    match dgetD kvs "index" (Json.obj []) with
    | Json.obj skvs =>
      match pyInt (dgetD skvs "major" (Json.num 0)), pyInt (dgetD skvs "minor" (Json.num 0)) with
      | some major, some minor => .ok (major, minor)
      | _, _ => .error "int() failed"
    | _ => .error "AttributeError"
  | _ => .error "AttributeError"

/-- The recognized optional passthrough fields of a withdrawal / transfer. -/
def optionalKeys : List String :=
  ["priority", "ring_size", "do_not_relay", "payment_id", "unlock_time"]

/-- `for k in [...]: if k in obj: params[k] = obj[k]` — copy the recognized
optional fields, in order, onto the params dict. -/
def passthrough (obj : Dict) (ps : Dict) : Dict :=
  optionalKeys.foldl
    (fun acc k => match obj.lookup k with
      | some v => acc ++ [(k, v)]
      | none => acc) ps

/-- `_process_withdraw` (main.py lines 75-104): validate required fields,
build the `transfer_split` params, resolve `from_address` if present (a
resolution failure is logged and the source binding dropped), copy optional
fields through, and issue `transfer_split`.  Returns the wallet RPC calls
issued in order, and success or the raised exception's message. -/
def _process_withdraw (rpc : Oracle) (obj : Dict) : List RpcCall × Except String Unit :=
  let to_address := pyGet obj "to_address"
  let amount_xmr := pyGet obj "amount_xmr"
  let from_address := pyGet obj "from_address"
  if !jTruthy to_address || isNull amount_xmr then
    ([], .error "Invalid withdraw message: missing to_address or amount_xmr")
  else
    match pyFloat amount_xmr with
    | none => ([], .error "float() failed")
    | some amt =>
      let params0 : Dict :=
        [("destinations", Json.arr [Json.obj
            [("amount", Json.num (MoneroRPC.xmr_to_atomic amt : ℤ)), ("address", to_address)]]),
         ("get_tx_keys", Json.bool true)]
      let resolved : List RpcCall × Dict :=
        if jTruthy from_address then
          let req := Json.obj [("address", from_address)]
          match rpc "get_address_index" req with
          | .ok idx =>
            match resolveIndex idx with
            | .ok mm =>
              ([⟨"get_address_index", req⟩],
               params0 ++ [("account_index", Json.num (mm.1 : ℤ)),
                           ("subaddr_indices", Json.arr [Json.num (mm.2 : ℤ)])])
            | .error _ => ([⟨"get_address_index", req⟩], params0)
          | .error _ => ([⟨"get_address_index", req⟩], params0)
        else
          ([], params0)
      let params2 := passthrough obj resolved.2
      let trace := resolved.1 ++ [⟨"transfer_split", Json.obj params2⟩]
      match rpc "transfer_split" (Json.obj params2) with
      | .ok res =>
        -- res.get("tx_hash_list") or res.get("tx_hashes"): raises on a non-dict
        match res with
        | Json.obj _ => (trace, .ok ())
        | _ => (trace, .error "AttributeError")
      | .error e => (trace, .error e)

/-- How one fetched message was dispatched. -/
inductive DispatchKind where
  | withdraw
  | unknown
deriving DecidableEq

/-- What `_drain_queue_once` did with one fetched message. -/
inductive Disposition where
  /-- `basic_ack`: positively acknowledged. -/
  | acked
  /-- `basic_nack(requeue=True)`: negatively acknowledged and requeued. -/
  | nacked
deriving DecidableEq

/-- The per-message `try` body of `_drain_queue_once` (lines 120-127):
`obj = json.loads(body.decode()) if body else {}` (the parser `json.loads` is a
parameter; an empty body short-circuits to `{}`), then dispatch on
`obj.get("type")` — which raises on a non-dict.  `.ok` reports which branch
dispatched; `.error` is the exception caught by the `except` clause. -/
def handleMessage (parse : String → Option Json) (rpc : Oracle) (body : String) :
    Except String DispatchKind :=
  match (if body == "" then some (Json.obj []) else parse body) with
  | none => .error "json.loads failed"
  | some (Json.obj kvs) =>
    if isStrEq (pyGet kvs "type") "withdraw" then
      match (_process_withdraw rpc kvs).2 with
      | .ok _ => .ok .withdraw
      | .error e => .error e
    else
      .ok .unknown
  | some _ => .error "AttributeError"

/-- Boolean success of a dispatch. -/
def exOk {ε α : Type} : Except ε α → Bool
  | .ok _ => true
  | .error _ => false

/-- One drain cycle, `_drain_queue_once` (lines 107-140), over the queue
contents (front of the list = next `basic_get`): a successfully dispatched
message is acked and the loop fetches the next; on the first failing message
the loop nacks it with requeue and `break`s.  Returns the per-message
dispositions in fetch order and the queue contents after the cycle (an acked
message is gone, a nacked one is back on the queue). -/
def _drain_queue_once (parse : String → Option Json) (rpc : Oracle) :
    List String → List (String × Disposition) × List String
  | [] => ([], [])
  | body :: rest =>
    match handleMessage parse rpc body with
    | .ok _ =>
      let t := _drain_queue_once parse rpc rest
      ((body, .acked) :: t.1, t.2)
    | .error _ => ([(body, .nacked)], body :: rest)

/-- `_consumer_loop` (lines 143-149) unrolled for `n` cycles: each cycle runs
`_drain_queue_once` on the current queue contents (the sleep between cycles is
not modelled).  Returns the trace of each cycle and the final queue. -/
def _consumer_loop (parse : String → Option Json) (rpc : Oracle) :
    Nat → List String → List (List (String × Disposition)) × List String
  | 0, q => ([], q)
  | n + 1, q =>
    let c := _drain_queue_once parse rpc q
    let l := _consumer_loop parse rpc n c.2
    (c.1 :: l.1, l.2)

/-! ## Synchronous handlers (`src/app/main.py`) -/

/-- `POST /transfer` (lines 275-303): validate required fields, resolve
`from_address` when present — a resolution failure here is surfaced to the
caller as HTTP 400 and no transfer call is issued — copy optional fields
through and issue `transfer`.  Result is the wallet calls issued and either
the RPC result or `(status, detail)` of the HTTPException raised. -/
def transfer (rpc : Oracle) (payload : Dict) : List RpcCall × Except (Nat × String) Json :=
  let to_address := pyGet payload "to_address"
  let amount_xmr := pyGet payload "amount_xmr"
  if !jTruthy to_address || isNull amount_xmr then
    ([], .error (400, "to_address and amount_xmr are required"))
  else
    match pyFloat amount_xmr with
    | none => ([], .error (500, "float() failed"))
    | some amt =>
      let from_address := pyGet payload "from_address"
      let params0 : Dict :=
        [("destinations", Json.arr [Json.obj
            [("amount", Json.num (MoneroRPC.xmr_to_atomic amt : ℤ)), ("address", to_address)]]),
         ("get_tx_key", Json.bool true)]
      let step1 : Except (List RpcCall × (Nat × String)) (List RpcCall × Dict) :=
        if jTruthy from_address then
          let req := Json.obj [("address", from_address)]
          match rpc "get_address_index" req with
          | .ok idx =>
            match resolveIndex idx with
            | .ok mm =>
              .ok ([⟨"get_address_index", req⟩],
                   params0 ++ [("account_index", Json.num (mm.1 : ℤ)),
                               ("subaddr_indices", Json.arr [Json.num (mm.2 : ℤ)])])
            | .error e =>
              .error ([⟨"get_address_index", req⟩], (400, "Failed to resolve from_address: " ++ e))
          | .error e =>
            .error ([⟨"get_address_index", req⟩], (400, "Failed to resolve from_address: " ++ e))
        else
          .ok ([], params0)
      match step1 with
      | .error tre => (tre.1, .error tre.2)
      | .ok tp =>
        let params2 := passthrough payload tp.2
        match rpc "transfer" (Json.obj params2) with
        | .ok res => (tp.1 ++ [⟨"transfer", Json.obj params2⟩], .ok res)
        | .error e => (tp.1 ++ [⟨"transfer", Json.obj params2⟩], .error (500, e))

/-! ## Address ledger (`src/app/models.py`, `src/app/database.py`) -/

/-- One `AddressMap` row (models.py lines 5-16).  The DB-assigned surrogate
`id` and the `created_at` timestamp are not modelled (no claim touches them);
`label` is carried as the JSON value the handler passes in. -/
structure AddressMapRow where
  user_id : ℤ
  address : String
  label : Json
  account_index : ℤ
  address_index : ℤ

/-- `session.add(row); session.commit()` under the declared unique constraint
`uq_addressmap_address` (models.py lines 14-16): the SQL engine rejects a row
whose `address` equals an existing row's (IntegrityError, carried as its
message) and the failed transaction leaves the table unchanged; otherwise the
row is appended. -/
def ledgerInsert (db : List AddressMapRow) (r : AddressMapRow) :
    Except String (List AddressMapRow) :=
  if db.any (fun x => x.address == r.address) then
    .error "UNIQUE constraint failed: addressmap.address"
  else
    .ok (db ++ [r])

/-- A sequence of insert attempts against the ledger; a rejected insert leaves
the table as it was. -/
def ledgerRun (db : List AddressMapRow) : List AddressMapRow → List AddressMapRow
  | [] => db
  | r :: rs =>
    match ledgerInsert db r with
    | .ok db2 => ledgerRun db2 rs
    | .error _ => ledgerRun db rs

/-- `POST /addresses`, `create_address` (main.py lines 193-211):
`user_id = int(payload.get("user_id")) if payload.get("user_id") is not None
else None`; `if not user_id: 400` (so 0 is rejected like an absent value);
then the wallet `create_address` call, then the ledger insert.  Returns the
wallet calls issued, the ledger after the request, and the response body or
the `(status, detail)` of the error response. -/
def create_address (rpc : Oracle) (default_account_index : ℤ)
    (db : List AddressMapRow) (payload : Dict) :
    List RpcCall × List AddressMapRow × Except (Nat × String) Dict :=
  let uidj := pyGet payload "user_id"
  match (match uidj with
         | Json.null => some none          -- user_id = None
         | v => (pyInt v).map some) with   -- user_id = int(v), raising on bad v
  | none => ([], db, .error (500, "int() failed"))
  | some uid? =>
    match uid? with
    | none => ([], db, .error (400, "user_id is required"))
    | some uid =>
      if uid == 0 then
        ([], db, .error (400, "user_id is required"))
      else
        let label := pyGet payload "label"
        let prm := Json.obj
          (if jTruthy label then
            [("account_index", Json.num (default_account_index : ℤ)), ("label", label)]
          else
            [("account_index", Json.num (default_account_index : ℤ))])
        let trace := [(⟨"create_address", prm⟩ : RpcCall)]
        match rpc "create_address" prm with
        | .error e => (trace, db, .error (500, e))
        | .ok res =>
          match res with
          | Json.obj rk =>
            let address := dgetD rk "address" Json.null
            match pyInt (dgetD rk "address_index" (Json.num 0)) with
            | none => (trace, db, .error (500, "int() failed"))
            | some address_index =>
              if !jTruthy address then
                (trace, db, .error (500, "RPC create_address returned no address"))
              else
                match address with
                | Json.str a =>
                  match ledgerInsert db
                      ⟨uid, a, label, default_account_index, address_index⟩ with
                  | .ok db2 =>
                    (trace, db2, .ok
                      [("user_id", Json.num (uid : ℤ)), ("address", Json.str a),
                       ("label", label),
                       ("account_index", Json.num (default_account_index : ℤ)),
                       ("address_index", Json.num (address_index : ℤ))])
                  | .error e => (trace, db, .error (500, e))
                | _ =>
                  -- a truthy non-string address is rejected by the DB layer
                  (trace, db, .error (500, "invalid address value"))
          | _ => (trace, db, .error (500, "AttributeError"))

/-! ## Administrative endpoints -/

/-- Broker queue statistics as returned by a passive queue declaration. -/
structure QueueStats where
  message_count : Nat
  consumer_count : Nat

/-- Modelled from the spec: the route handlers for `GET /admin/queue` and
`POST /admin/drain` are exercised by `src/tests/test_admin.py` but absent from
`src/app/main.py` as provided; modelled from spec §6: `GET /admin/queue` →
`{enabled, queue, message_count, consumer_count}` where `enabled` reflects
whether a queue endpoint is configured. -/
def admin_queue (rabbitmq_url : Option String) (queue_name : String)
    (stats : QueueStats) : Dict :=
  [("enabled", Json.bool (strTruthy rabbitmq_url)),
   ("queue", Json.str queue_name),
   ("message_count", Json.num (stats.message_count : ℕ)),
   ("consumer_count", Json.num (stats.consumer_count : ℕ))]

/-- Modelled from the spec: `POST /admin/drain` (absent from the provided
`src/app/main.py`, exercised by `src/tests/test_admin.py`) triggers exactly
one manual drain cycle and responds `{status: "ok"}`. -/
def admin_drain (parse : String → Option Json) (rpc : Oracle) (queue : List String) :
    (List (String × Disposition) × List String) × Dict :=
  (_drain_queue_once parse rpc queue, [("status", Json.str "ok")])

/-! ## Concrete fixtures (used by witnesses and counterexamples) -/

/-- A tiny concrete stand-in for `json.loads`: `"dep"` decodes to a
non-withdraw message, `"w"` to a withdraw message with no required fields,
anything else is malformed. -/
def parse0 : String → Option Json := fun s =>
  if s == "dep" then some (Json.obj [("type", Json.str "deposit")])
  else if s == "w" then some (Json.obj [("type", Json.str "withdraw")])
  else none

/-- A wallet whose every RPC call fails. -/
def rpc0 : Oracle := fun _ _ => .error "wallet unreachable"

/-- A wallet that answers every RPC call with an empty result. -/
def rpcOk : Oracle := fun _ _ => .ok (Json.obj [])

/-- A concrete client configuration with credentials and basic scheme. -/
def cfg0 : RpcConfig := ⟨"http://wallet:18083", some "u", some "p", "basic"⟩

/-- First response of a server demanding digest auth. -/
def resp401d : HttpResponse :=
  ⟨401, [("WWW-Authenticate", "Digest qop=auth")], Json.null⟩

/-- First response of a server demanding basic auth (non-digest challenge). -/
def resp401b : HttpResponse :=
  ⟨401, [("WWW-Authenticate", "Basic realm=wallet")], Json.null⟩

/-- A server: 401 + digest challenge on the first attempt, 200 thereafter. -/
def serverDigest : Server := fun n _ =>
  if n == 1 then .ok resp401d
  else .ok ⟨200, [], Json.obj [("result", Json.obj [("ok", Json.bool true)])]⟩

/-- A server always answering 401 with a non-digest challenge. -/
def serverBasic401 : Server := fun _ _ => .ok resp401b

/-- A 200 response whose JSON-RPC envelope carries a non-empty error. -/
def respErrBody : HttpResponse :=
  ⟨200, [], Json.obj [("error", Json.obj [("code", Json.num (-1 : ℤ))])]⟩

/-- A server always answering 200 with an error-carrying envelope. -/
def serverErrBody : Server := fun _ _ => .ok respErrBody

/-- A concrete well-formed withdraw message with a `from_address`. -/
def obj6 : Dict :=
  [("type", Json.str "withdraw"), ("to_address", Json.str "dst"),
   ("amount_xmr", Json.num 1), ("from_address", Json.str "src")]

/-- A concrete `POST /addresses` payload whose `user_id` is 0. -/
def payload9 : Dict := [("user_id", Json.num 0)]

/-- A concrete ledger row. -/
def rowA : AddressMapRow := ⟨1, "addr1", Json.null, 0, 0⟩

/-- A second row for a different user carrying the same address as `rowA`. -/
def rowA2 : AddressMapRow := ⟨2, "addr1", Json.null, 0, 1⟩

/-! ## Helper lemmas -/

/-- Python `round` is a nearest-integer rounding: it never strays more than
1/2 from its argument. -/
theorem pythonRound_sub_le_half (q : ℚ) : |(MoneroRPC.pythonRound q : ℚ) - q| ≤ 1 / 2 := by
  have h0 : (⌊q⌋ : ℚ) ≤ q := Int.floor_le q
  have h1 : q < ⌊q⌋ + 1 := Int.lt_floor_add_one q
  unfold MoneroRPC.pythonRound
  split_ifs with hlt hgt hev
  · rw [abs_le]; constructor <;> linarith
  · rw [not_lt] at hlt
    rw [abs_le]; constructor <;> push_cast <;> linarith
  · rw [not_lt] at hlt hgt
    rw [abs_le]; constructor <;> linarith
  · rw [not_lt] at hlt hgt
    rw [abs_le]; constructor <;> push_cast <;> linarith

/-- `round` of an integer is itself. -/
theorem pythonRound_intCast (n : ℤ) : MoneroRPC.pythonRound (n : ℚ) = n := by
  unfold MoneroRPC.pythonRound
  rw [Int.floor_intCast]
  simp

/-- The attempt trace of `call` is the attempt trace of its HTTP exchange. -/
theorem call_fst (cfg : RpcConfig) (server : Server) :
    (MoneroRPC.call cfg server).1 = (MoneroRPC.callExchange cfg server).1 := by
  unfold MoneroRPC.call
  rcases MoneroRPC.callExchange cfg server with ⟨atts, res⟩
  cases res with
  | error e => rfl
  | ok r =>
    by_cases h : 200 ≤ r.status ∧ r.status < 300 <;> simp [h]

/-- With credentials configured, `_make_auth` for scheme `digest` is digest auth. -/
theorem make_auth_digest (u p : Option String) (h : (strTruthy u || strTruthy p) = true) :
    MoneroRPC._make_auth u p "digest" = some .digest := by
  unfold MoneroRPC._make_auth
  rw [h]
  rfl

/-- Shape of the HTTP exchange once the first attempt has answered. -/
theorem callExchange_ok (cfg : RpcConfig) (server : Server) (r1 : HttpResponse)
    (h1 : server 1 (MoneroRPC._make_auth cfg.username cfg.password cfg.auth_scheme) = .ok r1) :
    MoneroRPC.callExchange cfg server =
      if (r1.status == 401
          && hasSubstr (pyLower (headerGet r1.headers "www-authenticate")) "digest") = true then
        match server 2 (MoneroRPC._make_auth cfg.username cfg.password "digest") with
        | .error e =>
          ([MoneroRPC._make_auth cfg.username cfg.password cfg.auth_scheme,
            MoneroRPC._make_auth cfg.username cfg.password "digest"], .error e)
        | .ok r2 =>
          ([MoneroRPC._make_auth cfg.username cfg.password cfg.auth_scheme,
            MoneroRPC._make_auth cfg.username cfg.password "digest"], .ok r2)
      else
        ([MoneroRPC._make_auth cfg.username cfg.password cfg.auth_scheme], .ok r1) := by
  simp only [MoneroRPC.callExchange]
  rw [h1]

/-- Shape of the HTTP exchange when the first attempt fails at transport level. -/
theorem callExchange_error (cfg : RpcConfig) (server : Server) (e : String)
    (h1 : server 1 (MoneroRPC._make_auth cfg.username cfg.password cfg.auth_scheme) = .error e) :
    MoneroRPC.callExchange cfg server =
      ([MoneroRPC._make_auth cfg.username cfg.password cfg.auth_scheme], .error e) := by
  simp only [MoneroRPC.callExchange]
  rw [h1]

/-! ## Claim theorems -/

/-- C1: if the first HTTP attempt of `call` comes back 401 and the
`WWW-Authenticate` challenge contains `digest` (case-insensitively), `call`
performs exactly one retry — two attempts total, the second with digest auth
(whatever the configured scheme was); on a 401 with a non-digest challenge it
fails after exactly one attempt, reporting the 401; and no invocation ever
performs more than two HTTP attempts. -/
theorem C1_auth_negotiation (cfg : RpcConfig) (server : Server) (r1 : HttpResponse)
    (h1 : server 1 (MoneroRPC._make_auth cfg.username cfg.password cfg.auth_scheme) = .ok r1)
    (h401 : r1.status = 401) :
    (hasSubstr (pyLower (headerGet r1.headers "www-authenticate")) "digest" = true →
      (MoneroRPC.call cfg server).1
        = [MoneroRPC._make_auth cfg.username cfg.password cfg.auth_scheme,
           MoneroRPC._make_auth cfg.username cfg.password "digest"]
      ∧ ((strTruthy cfg.username || strTruthy cfg.password) = true →
          MoneroRPC._make_auth cfg.username cfg.password "digest" = some .digest))
    ∧ (hasSubstr (pyLower (headerGet r1.headers "www-authenticate")) "digest" = false →
      (MoneroRPC.call cfg server).1
        = [MoneroRPC._make_auth cfg.username cfg.password cfg.auth_scheme]
      ∧ (MoneroRPC.call cfg server).2
        = .error (.httpStatus 401 cfg.auth_scheme (headerGet r1.headers "www-authenticate")))
    ∧ (∀ srv : Server, (MoneroRPC.call cfg srv).1.length ≤ 2) := by
  refine ⟨?_, ?_, ?_⟩
  · intro hd
    refine ⟨?_, make_auth_digest _ _⟩
    rw [call_fst, callExchange_ok cfg server r1 h1, h401, hd]
    simp only [beq_self_eq_true, Bool.true_and, if_true]
    cases server 2 (MoneroRPC._make_auth cfg.username cfg.password "digest") <;> rfl
  · intro hd
    have hce : MoneroRPC.callExchange cfg server
        = ([MoneroRPC._make_auth cfg.username cfg.password cfg.auth_scheme], .ok r1) := by
      rw [callExchange_ok cfg server r1 h1, h401, hd]
      simp
    constructor
    · rw [call_fst, hce]
    · unfold MoneroRPC.call
      rw [hce]
      have hns : ¬(200 ≤ r1.status ∧ r1.status < 300) := by omega
      simp [hns, h401]
  · intro srv
    rw [call_fst]
    cases hs : srv 1 (MoneroRPC._make_auth cfg.username cfg.password cfg.auth_scheme) with
    | error e =>
      rw [callExchange_error cfg srv e hs]
      simp
    | ok r =>
      rw [callExchange_ok cfg srv r hs]
      split
      · cases srv 2 (MoneroRPC._make_auth cfg.username cfg.password "digest") <;> simp
      · simp

/-- Witness for C1 on a concrete server answering 401 with a digest challenge
first and 200 on the retry: two attempts, basic then digest. -/
theorem C1_auth_negotiation_witness :
    serverDigest 1 (MoneroRPC._make_auth cfg0.username cfg0.password cfg0.auth_scheme)
        = .ok resp401d
    ∧ resp401d.status = 401
    ∧ hasSubstr (pyLower (headerGet resp401d.headers "www-authenticate")) "digest" = true
    ∧ (MoneroRPC.call cfg0 serverDigest).1 = [some .basic, some .digest] := by
  refine ⟨rfl, rfl, by decide, ?_⟩
  have h := ((C1_auth_negotiation cfg0 serverDigest resp401d rfl rfl).1 (by decide)).1
  rw [h]
  rfl

/-- C5: when the HTTP exchange of `call` ends in a 2xx response whose decoded
body is a JSON object, a present and truthy `error` field makes `call` fail
with that payload even though the HTTP status was a success, and otherwise
`call` returns the body's `result` field, defaulting to the empty mapping
when `result` is absent. -/
theorem C5_envelope (cfg : RpcConfig) (server : Server) (r : HttpResponse)
    (kvs : List (String × Json))
    (hex : (MoneroRPC.callExchange cfg server).2 = .ok r)
    (h2xx : 200 ≤ r.status ∧ r.status < 300)
    (hbody : r.body = Json.obj kvs) :
    (∀ e, kvs.lookup "error" = some e → jTruthy e = true →
      (MoneroRPC.call cfg server).2 = .error (.rpcError e))
    ∧ ((∀ e, kvs.lookup "error" = some e → jTruthy e = false) →
      (MoneroRPC.call cfg server).2 = .ok ((kvs.lookup "result").getD (Json.obj []))) := by
  have hsnd : (MoneroRPC.call cfg server).2 = MoneroRPC.envelopeResult r.body := by
    unfold MoneroRPC.call
    rcases hc : MoneroRPC.callExchange cfg server with ⟨atts, res⟩
    rw [hc] at hex
    simp only at hex
    subst hex
    simp [h2xx]
  rw [hsnd, hbody]
  unfold MoneroRPC.envelopeResult
  constructor
  · intro e he ht
    simp [he, ht]
  · intro hall
    rcases h : kvs.lookup "error" with _ | e
    · simp [h]
    · simp [h, hall e h]

/-- Witness for C5 on a concrete server answering 200 with an envelope whose
`error` field is non-empty: the call fails with that payload. -/
theorem C5_envelope_witness :
    (MoneroRPC.callExchange cfg0 serverErrBody).2 = .ok respErrBody
    ∧ (200 ≤ respErrBody.status ∧ respErrBody.status < 300)
    ∧ (MoneroRPC.call cfg0 serverErrBody).2
        = .error (.rpcError (Json.obj [("code", Json.num (-1 : ℤ))])) := by
  refine ⟨rfl, by decide, ?_⟩
  exact (C5_envelope cfg0 serverErrBody respErrBody
    [("error", Json.obj [("code", Json.num (-1 : ℤ))])] rfl (by decide) rfl).1 _ rfl rfl

/-- C7: the unit-conversion helpers are total functions with
`xmr_to_atomic x = round(x * 10^12)` a nearest-integer rounding (never more
than 1/2 from `x * 10^12`), `atomic_to_xmr n = n / 10^12`,
`xmr_to_atomic 1.0 = 10^12`, and for every `a ≥ 0` the round trip
`atomic_to_xmr (xmr_to_atomic a)` is within `10^-12` of `a`. -/
theorem C7_unit_conversion (x a : ℚ) (ha : 0 ≤ a) :
    |(MoneroRPC.xmr_to_atomic x : ℚ) - x * 10 ^ 12| ≤ 1 / 2
    ∧ MoneroRPC.xmr_to_atomic 1 = 10 ^ 12
    ∧ (∀ n : ℤ, MoneroRPC.atomic_to_xmr n = (n : ℚ) / 10 ^ 12)
    ∧ |MoneroRPC.atomic_to_xmr (MoneroRPC.xmr_to_atomic a) - a| ≤ 1 / 10 ^ 12 := by
  refine ⟨pythonRound_sub_le_half (x * 10 ^ 12), ?_, fun n => rfl, ?_⟩
  · show MoneroRPC.pythonRound ((1 : ℚ) * 10 ^ 12) = 10 ^ 12
    rw [show ((1 : ℚ) * 10 ^ 12) = ((10 ^ 12 : ℤ) : ℚ) by norm_num]
    rw [pythonRound_intCast]
  · have key : MoneroRPC.atomic_to_xmr (MoneroRPC.xmr_to_atomic a) - a
        = ((MoneroRPC.pythonRound (a * 10 ^ 12) : ℚ) - a * 10 ^ 12) / 10 ^ 12 := by
      unfold MoneroRPC.atomic_to_xmr MoneroRPC.xmr_to_atomic
      field_simp
      ring
    rw [key, abs_div, show |(10 ^ 12 : ℚ)| = 10 ^ 12 from abs_of_pos (by positivity)]
    have hb := pythonRound_sub_le_half (a * 10 ^ 12)
    calc |(MoneroRPC.pythonRound (a * 10 ^ 12) : ℚ) - a * 10 ^ 12| / 10 ^ 12
        ≤ (1 / 2) / 10 ^ 12 := by gcongr
      _ ≤ 1 / 10 ^ 12 := by norm_num

/-- C2: in every drain cycle, a successfully dispatched message (unrecognized
types included) is acked and the cycle continues with the next fetch; the
first message whose parse or processing fails is nacked with requeue and the
cycle fetches nothing further; an empty queue yields zero dispatches.  In
particular a queue of three messages whose second is malformed JSON gets its
first message acked, its second nacked and requeued, and its third never
attempted. -/
theorem C2_drain_cycle (parse : String → Option Json) (rpc : Oracle) :
    (_drain_queue_once parse rpc [] = ([], []))
    ∧ (∀ body rest, exOk (handleMessage parse rpc body) = true →
        _drain_queue_once parse rpc (body :: rest)
          = ((body, .acked) :: (_drain_queue_once parse rpc rest).1,
             (_drain_queue_once parse rpc rest).2))
    ∧ (∀ body rest, exOk (handleMessage parse rpc body) = false →
        _drain_queue_once parse rpc (body :: rest) = ([(body, .nacked)], body :: rest))
    ∧ (∀ m1 m2 m3, exOk (handleMessage parse rpc m1) = true → m2 ≠ "" → parse m2 = none →
        _drain_queue_once parse rpc [m1, m2, m3]
          = ([(m1, .acked), (m2, .nacked)], [m2, m3])) := by
  have hok : ∀ body rest, exOk (handleMessage parse rpc body) = true →
      _drain_queue_once parse rpc (body :: rest)
        = ((body, .acked) :: (_drain_queue_once parse rpc rest).1,
           (_drain_queue_once parse rpc rest).2) := by
    intro body rest h
    simp only [_drain_queue_once]
    cases hm : handleMessage parse rpc body with
    | ok k => rfl
    | error e => rw [hm] at h; simp [exOk] at h
  have hbad : ∀ body rest, exOk (handleMessage parse rpc body) = false →
      _drain_queue_once parse rpc (body :: rest) = ([(body, .nacked)], body :: rest) := by
    intro body rest h
    simp only [_drain_queue_once]
    cases hm : handleMessage parse rpc body with
    | ok k => rw [hm] at h; simp [exOk] at h
    | error e => rfl
  refine ⟨rfl, hok, hbad, ?_⟩
  intro m1 m2 m3 h1 h2 h3
  have hm2 : handleMessage parse rpc m2 = .error "json.loads failed" := by
    simp only [handleMessage]
    rw [show (m2 == "") = false from beq_eq_false_iff_ne.mpr h2,
      if_neg Bool.false_ne_true, h3]
  rw [hok m1 [m2, m3] h1, hbad m2 [m3] (by rw [hm2]; rfl)]

/-- Witness for C2 on a concrete three-message queue whose second message is
malformed JSON: first acked, second nacked and back on the queue, third
untouched. -/
theorem C2_drain_cycle_witness :
    exOk (handleMessage parse0 rpc0 "dep") = true
    ∧ "bad" ≠ ""
    ∧ parse0 "bad" = none
    ∧ _drain_queue_once parse0 rpc0 ["dep", "bad", "x"]
        = ([("dep", .acked), ("bad", .nacked)], ["bad", "x"]) :=
  ⟨rfl, by decide, rfl,
    (C2_drain_cycle parse0 rpc0).2.2.2 "dep" "bad" "x" rfl (by decide) rfl⟩

/-- C3 counterexample: a queue holding one `withdraw` message with no required
fields, run for two consecutive drain cycles.  Cycle 1 nacks the message with
requeue; cycle 2 fetches the very same message again and nacks it again — the
requeued message IS retried on the next cycle, refuting "requeued once, after
which it is not retried". -/
theorem C3_counterexample :
    (_consumer_loop parse0 rpc0 2 ["w"]).1
      = [[("w", Disposition.nacked)], [("w", Disposition.nacked)]] := rfl

/-- C3 (amended): a `withdraw` message missing required fields fails
processing, is nacked with requeue, and the drain cycle halts; because the
message is requeued, the next drain cycle fetches and retries it again — a
poison message is retried once per cycle indefinitely (throttled by the poll
interval), not stopped after a single requeue.  A message of a non-withdraw
type is acknowledged and skipped, never requeued. -/
theorem handleMessage_parsed (parse : String → Option Json) (rpc : Oracle) (body : String)
    (kvs : List (String × Json)) (hb : (body == "") = false)
    (hp : parse body = some (Json.obj kvs)) :
    handleMessage parse rpc body =
      (if isStrEq (pyGet kvs "type") "withdraw" then
        match (_process_withdraw rpc kvs).2 with
        | .ok _ => .ok .withdraw
        | .error e => .error e
      else .ok .unknown) := by
  simp only [handleMessage, hb]
  rw [if_neg Bool.false_ne_true, hp]

theorem C3_poison_retry (parse : String → Option Json) (rpc : Oracle)
    (body : String) (rest : List String) (kvs : List (String × Json))
    (hb : body ≠ "") (hp : parse body = some (Json.obj kvs)) :
    (isStrEq (pyGet kvs "type") "withdraw" = true →
      jTruthy (pyGet kvs "to_address") = false →
      _drain_queue_once parse rpc (body :: rest) = ([(body, .nacked)], body :: rest)
      ∧ (_drain_queue_once parse rpc
           (_drain_queue_once parse rpc (body :: rest)).2).1 = [(body, .nacked)])
    ∧ (isStrEq (pyGet kvs "type") "withdraw" = false →
      _drain_queue_once parse rpc (body :: rest)
        = ((body, .acked) :: (_drain_queue_once parse rpc rest).1,
           (_drain_queue_once parse rpc rest).2)) := by
  have hbeq : (body == "") = false := beq_eq_false_iff_ne.mpr hb
  constructor
  · intro hw hto
    have hpw : (_process_withdraw rpc kvs).2
        = .error "Invalid withdraw message: missing to_address or amount_xmr" := by
      simp only [_process_withdraw]
      rw [hto]
      rfl
    have hmsg : handleMessage parse rpc body
        = .error "Invalid withdraw message: missing to_address or amount_xmr" := by
      rw [handleMessage_parsed parse rpc body kvs hbeq hp, hw, if_pos rfl, hpw]
    have hcycle : _drain_queue_once parse rpc (body :: rest)
        = ([(body, .nacked)], body :: rest) := by
      simp only [_drain_queue_once]
      rw [hmsg]
    refine ⟨hcycle, ?_⟩
    rw [hcycle, hcycle]
  · intro hw
    have hmsg : handleMessage parse rpc body = .ok .unknown := by
      rw [handleMessage_parsed parse rpc body kvs hbeq hp, hw,
        if_neg Bool.false_ne_true]
    simp only [_drain_queue_once]
    rw [hmsg]

/-- Witness for the amended C3 on a concrete one-message queue: the malformed
withdraw message is nacked, stays on the queue, and the next cycle nacks it
again. -/
theorem C3_poison_retry_witness :
    "w" ≠ ""
    ∧ parse0 "w" = some (Json.obj [("type", Json.str "withdraw")])
    ∧ isStrEq (pyGet [("type", Json.str "withdraw")] "type") "withdraw" = true
    ∧ jTruthy (pyGet [("type", Json.str "withdraw")] "to_address") = false
    ∧ (_drain_queue_once parse0 rpc0 ["w"] = ([("w", .nacked)], ["w"])
       ∧ (_drain_queue_once parse0 rpc0
            (_drain_queue_once parse0 rpc0 ["w"]).2).1 = [("w", .nacked)]) :=
  ⟨by decide, rfl, rfl, rfl,
    (C3_poison_retry parse0 rpc0 "w" [] [("type", Json.str "withdraw")]
      (by decide) rfl).1 rfl rfl⟩

/-- C10: a queue message with an empty body short-circuits `json.loads`, is
parsed as the empty object, dispatched as an unrecognized type, and positively
acknowledged — never a parse error, never requeued. -/
theorem C10_empty_body (parse : String → Option Json) (rpc : Oracle) (rest : List String) :
    handleMessage parse rpc "" = .ok .unknown
    ∧ _drain_queue_once parse rpc ("" :: rest)
        = (("", .acked) :: (_drain_queue_once parse rpc rest).1,
           (_drain_queue_once parse rpc rest).2) := by
  have h : handleMessage parse rpc "" = .ok .unknown := rfl
  refine ⟨h, ?_⟩
  simp only [_drain_queue_once]
  rw [h]

/-- Looking a key up in an appended dict: first list wins. -/
theorem lookup_append (k : String) (l1 l2 : Dict) :
    (l1 ++ l2).lookup k = ((l1.lookup k).orElse fun _ => l2.lookup k) := by
  induction l1 with
  | nil => simp [Option.orElse]
  | cons hd tl ih =>
    rcases hd with ⟨k1, v1⟩
    simp only [List.cons_append, List.lookup_cons]
    cases k == k1 <;> simp [ih, Option.orElse]

/-- The optional-field passthrough never introduces a key outside
`optionalKeys`. -/
theorem lookup_foldl_none (obj : Dict) (k : String) :
    ∀ (ks : List String) (init : Dict), init.lookup k = none → (∀ x ∈ ks, x ≠ k) →
      (ks.foldl (fun acc k2 => match obj.lookup k2 with
        | some v => acc ++ [(k2, v)]
        | none => acc) init).lookup k = none := by
  intro ks
  induction ks with
  | nil =>
    intro init h _
    simpa using h
  | cons hd tl ih =>
    intro init h hk
    simp only [List.foldl_cons]
    apply ih
    · cases ho : obj.lookup hd with
      | none => simpa [ho] using h
      | some v =>
        simp only [ho]
        rw [lookup_append, h]
        have hne : (k == hd) = false :=
          beq_eq_false_iff_ne.mpr (Ne.symm (hk hd (List.mem_cons_self hd tl)))
        simp [List.lookup_cons, hne, Option.orElse]
    · intro x hx
      exact hk x (List.mem_cons_of_mem _ hx)

/-- `passthrough` preserves the absence of any non-optional key. -/
theorem lookup_passthrough_none (obj init : Dict) (k : String)
    (h : init.lookup k = none) (hk : ∀ x ∈ optionalKeys, x ≠ k) :
    (passthrough obj init).lookup k = none := by
  unfold passthrough
  exact lookup_foldl_none obj k optionalKeys init h hk

/-- C6: on a withdrawal whose `from_address` fails to resolve, the withdrawal
processor degrades: it still issues `transfer_split`, with params binding no
`account_index` and no `subaddr_indices`; the synchronous `POST /transfer`
handler on the same failure instead answers HTTP 400 and issues no transfer
call. -/
theorem C6_degrade_vs_fail (rpc : Oracle) (obj : Dict) (e : String) (q : ℚ)
    (hto : jTruthy (pyGet obj "to_address") = true)
    (hamt : pyFloat (pyGet obj "amount_xmr") = some q)
    (hfrom : jTruthy (pyGet obj "from_address") = true)
    (hres : rpc "get_address_index" (Json.obj [("address", pyGet obj "from_address")])
        = .error e) :
    (∃ ps : Dict,
      (_process_withdraw rpc obj).1
        = [⟨"get_address_index", Json.obj [("address", pyGet obj "from_address")]⟩,
           ⟨"transfer_split", Json.obj ps⟩]
      ∧ ps.lookup "account_index" = none
      ∧ ps.lookup "subaddr_indices" = none)
    ∧ (transfer rpc obj).1
        = [⟨"get_address_index", Json.obj [("address", pyGet obj "from_address")]⟩]
    ∧ (transfer rpc obj).2 = .error (400, "Failed to resolve from_address: " ++ e) := by
  have hnull : isNull (pyGet obj "amount_xmr") = false := by
    cases hv : pyGet obj "amount_xmr" with
    | null => rw [hv] at hamt; simp [pyFloat] at hamt
    | bool b => rfl
    | num q2 => rfl
    | str s => rfl
    | arr xs => rfl
    | obj o => rfl
  refine ⟨⟨passthrough obj
      [("destinations", Json.arr [Json.obj
          [("amount", Json.num (MoneroRPC.xmr_to_atomic q : ℤ)),
           ("address", pyGet obj "to_address")]]),
       ("get_tx_keys", Json.bool true)], ?_, ?_, ?_⟩, ?_, ?_⟩
  · simp only [_process_withdraw, hto, hnull, hamt, hfrom, hres, Bool.not_true,
      Bool.false_or, Bool.or_false, if_true, if_false, Bool.false_eq_true, ite_false]
    cases rpc "transfer_split" (Json.obj (passthrough obj
        [("destinations", Json.arr [Json.obj
            [("amount", Json.num (MoneroRPC.xmr_to_atomic q : ℤ)),
             ("address", pyGet obj "to_address")]]),
         ("get_tx_keys", Json.bool true)])) with
    | ok res => cases res <;> rfl
    | error e2 => rfl
  · exact lookup_passthrough_none _ _ _ rfl (by decide)
  · exact lookup_passthrough_none _ _ _ rfl (by decide)
  · simp only [transfer, hto, hnull, hamt, hfrom, hres, Bool.not_true,
      Bool.false_or, Bool.or_false, if_true, if_false, Bool.false_eq_true, ite_false]
  · simp only [transfer, hto, hnull, hamt, hfrom, hres, Bool.not_true,
      Bool.false_or, Bool.or_false, if_true, if_false, Bool.false_eq_true, ite_false]

/-- Witness for C6 on a concrete withdraw message whose wallet fails every
call: the processor still issues `transfer_split` with no source binding,
the synchronous handler answers 400 with no transfer call. -/
theorem C6_degrade_vs_fail_witness :
    jTruthy (pyGet obj6 "to_address") = true
    ∧ pyFloat (pyGet obj6 "amount_xmr") = some 1
    ∧ jTruthy (pyGet obj6 "from_address") = true
    ∧ rpc0 "get_address_index" (Json.obj [("address", pyGet obj6 "from_address")])
        = .error "wallet unreachable"
    ∧ ((∃ ps : Dict,
        (_process_withdraw rpc0 obj6).1
          = [⟨"get_address_index", Json.obj [("address", pyGet obj6 "from_address")]⟩,
             ⟨"transfer_split", Json.obj ps⟩]
        ∧ ps.lookup "account_index" = none
        ∧ ps.lookup "subaddr_indices" = none)
      ∧ (transfer rpc0 obj6).1
          = [⟨"get_address_index", Json.obj [("address", pyGet obj6 "from_address")]⟩]
      ∧ (transfer rpc0 obj6).2
          = .error (400, "Failed to resolve from_address: wallet unreachable")) :=
  ⟨rfl, rfl, rfl, rfl,
    C6_degrade_vs_fail rpc0 obj6 "wallet unreachable" 1 rfl rfl rfl rfl⟩

/-- Addresses stay pairwise distinct across any sequence of insert attempts. -/
theorem ledgerRun_nodup (ops : List AddressMapRow) :
    ∀ db : List AddressMapRow, (db.map (fun x => x.address)).Nodup →
      ((ledgerRun db ops).map (fun x => x.address)).Nodup := by
  induction ops with
  | nil =>
    intro db h
    simpa [ledgerRun] using h
  | cons r0 rs ih =>
    intro db h
    simp only [ledgerRun]
    cases hin : ledgerInsert db r0 with
    | error e => exact ih db h
    | ok db2 =>
      apply ih
      unfold ledgerInsert at hin
      by_cases hc : db.any (fun x => x.address == r0.address) = true
      · rw [if_pos hc] at hin
        cases hin
      · rw [if_neg hc] at hin
        injection hin with hd
        subst hd
        rw [List.map_append]
        refine List.Nodup.append h (by simp) ?_
        intro a ha hb
        simp only [List.map_cons, List.map_nil, List.mem_singleton] at hb
        subst hb
        apply hc
        rw [List.any_eq_true]
        rcases List.mem_map.mp ha with ⟨x, hx, hxa⟩
        exact ⟨x, hx, by rw [beq_iff_eq, hxa]⟩

/-- C8: the ledger's address-uniqueness invariant: starting from a table with
pairwise-distinct addresses, any sequence of insert attempts keeps addresses
pairwise distinct, and inserting a record whose address equals an existing
record's fails with the uniqueness violation (leaving the table unchanged, as
`ledgerInsert` returns no new table on the error path). -/
theorem C8_address_unique (db ops : List AddressMapRow) (r : AddressMapRow)
    (hdb : (db.map (fun x => x.address)).Nodup) :
    ((ledgerRun db ops).map (fun x => x.address)).Nodup
    ∧ ((∃ x ∈ db, x.address = r.address) →
        ledgerInsert db r = .error "UNIQUE constraint failed: addressmap.address") := by
  refine ⟨ledgerRun_nodup ops db hdb, ?_⟩
  rintro ⟨x, hx, he⟩
  unfold ledgerInsert
  have hc : (db.any fun y => y.address == r.address) = true := by
    rw [List.any_eq_true]
    exact ⟨x, hx, beq_iff_eq.mpr he⟩
  rw [if_pos hc]

/-- Witness for C8 on a concrete ledger: one row in, attempting a second row
with the same address fails with the uniqueness violation, and addresses stay
distinct. -/
theorem C8_address_unique_witness :
    (([rowA].map (fun x => x.address)).Nodup)
    ∧ ((ledgerRun [rowA] [rowA2]).map (fun x => x.address)).Nodup
    ∧ ledgerInsert [rowA] rowA2
        = .error "UNIQUE constraint failed: addressmap.address" := by
  refine ⟨by simp, (C8_address_unique [rowA] [rowA2] rowA2 (by simp)).1, ?_⟩
  exact (C8_address_unique [rowA] [rowA2] rowA2 (by simp)).2
    ⟨rowA, List.mem_singleton_self rowA, rfl⟩

/-- C9: `POST /addresses` with `user_id` present and equal to 0 is rejected
with the same 400 validation error as a missing `user_id`, and no wallet RPC
call is made (and the ledger is untouched) in either case. -/
theorem C9_zero_user_id (rpc : Oracle) (dai : ℤ) (db : List AddressMapRow) (payload : Dict)
    (h : payload.lookup "user_id" = some (Json.num 0)) :
    create_address rpc dai db payload = ([], db, .error (400, "user_id is required"))
    ∧ (∀ payload2 : Dict, payload2.lookup "user_id" = none →
        create_address rpc dai db payload2
          = ([], db, .error (400, "user_id is required"))) := by
  constructor
  · have hz : pyGet payload "user_id" = Json.num 0 := by simp [pyGet, dgetD, h]
    simp only [create_address, hz]
    rfl
  · intro payload2 h2
    have hz : pyGet payload2 "user_id" = Json.null := by simp [pyGet, dgetD, h2]
    simp only [create_address, hz]

/-- Witness for C9 on a concrete payload `{"user_id": 0}`. -/
theorem C9_zero_user_id_witness :
    payload9.lookup "user_id" = some (Json.num 0)
    ∧ create_address rpc0 0 [] payload9 = ([], [], .error (400, "user_id is required")) :=
  ⟨rfl, (C9_zero_user_id rpc0 0 [] payload9 rfl).1⟩

/-- C4 (spec-modelled, the admin route handlers being absent from the
provided `src/app/main.py`): `GET /admin/queue` answers an object with
exactly the fields `enabled`, `queue`, `message_count`, `consumer_count`
carrying the configuration flag, the queue name and the broker statistics;
`POST /admin/drain` runs exactly one drain cycle and answers
`{"status": "ok"}`. -/
theorem C4_admin_endpoints (url : Option String) (qname : String) (stats : QueueStats)
    (parse : String → Option Json) (rpc : Oracle) (queue : List String) :
    (admin_queue url qname stats).map Prod.fst
        = ["enabled", "queue", "message_count", "consumer_count"]
    ∧ (admin_queue url qname stats).lookup "enabled" = some (Json.bool (strTruthy url))
    ∧ (admin_queue url qname stats).lookup "queue" = some (Json.str qname)
    ∧ (admin_queue url qname stats).lookup "message_count"
        = some (Json.num (stats.message_count : ℕ))
    ∧ (admin_queue url qname stats).lookup "consumer_count"
        = some (Json.num (stats.consumer_count : ℕ))
    ∧ (admin_drain parse rpc queue).1 = _drain_queue_once parse rpc queue
    ∧ (admin_drain parse rpc queue).2 = [("status", Json.str "ok")] :=
  ⟨rfl, rfl, rfl, rfl, rfl, rfl, rfl⟩

/-- Witness for C7 at `x = 1`, `a = 1`. -/
theorem C7_unit_conversion_witness :
    (0 : ℚ) ≤ 1 ∧
    (|(MoneroRPC.xmr_to_atomic 1 : ℚ) - 1 * 10 ^ 12| ≤ 1 / 2
      ∧ MoneroRPC.xmr_to_atomic 1 = 10 ^ 12
      ∧ (∀ n : ℤ, MoneroRPC.atomic_to_xmr n = (n : ℚ) / 10 ^ 12)
      ∧ |MoneroRPC.atomic_to_xmr (MoneroRPC.xmr_to_atomic 1) - 1| ≤ 1 / 10 ^ 12) :=
  ⟨by norm_num, C7_unit_conversion 1 1 (by norm_num)⟩

end Pupero
